import Mathlib

set_option maxHeartbeats 1000000

set_option linter.unusedVariables false

/-!
Shallow embedding of the CamFlow kernel security module: the IFC
control-plane endpoints of security/ifc/fs.c and the provenance LSM hooks
of security/provenance/hooks.c, together with theorems checking the
design specification against them.  Primitives that live outside these
two files (tag-set operations, tag minting, node-id assignment, record
emission) are modelled from the specification and marked as such in
their doc comments.
-/

/-- Kernel errno value EPERM (operation not permitted). -/
def EPERM : Int := 1

/-- Kernel errno value EAGAIN (try again). -/
def EAGAIN : Int := 11

/-- Kernel errno value ENOMEM (out of memory). -/
def ENOMEM : Int := 12

/-- Kernel errno value EINVAL (invalid argument). -/
def EINVAL : Int := 22

/-- Tags are opaque fixed-width integers; 0 is the reserved invalid sentinel. -/
abbrev tag_t := Nat

/-- Modelled from the spec: `ifc_tag_valid` — a tag is valid only if it is
not the reserved sentinel value 0. -/
def ifc_tag_valid (t : tag_t) : Bool := t != 0

/-- Modelled from the spec: tag sets are bounded to a fixed small
kernel-resource-constrained capacity. -/
def ifc_label_max : Nat := 32

/-- The six tag sets of an IFC security context (struct ifc_context). -/
structure ifc_context where
  secrecy : List tag_t
  integrity : List tag_t
  secrecy_p : List tag_t
  integrity_p : List tag_t
  secrecy_n : List tag_t
  integrity_n : List tag_t
deriving Repr, DecidableEq

/-- A freshly created, fully empty IFC context. -/
def empty_ifc : ifc_context := ⟨[], [], [], [], [], []⟩

/-- The tag-kind discriminator carried by struct ifc_tag_msg. -/
inductive ifc_tag_type
  | IFC_SECRECY
  | IFC_INTEGRITY
  | IFC_SECRECY_P
  | IFC_INTEGRITY_P
  | IFC_SECRECY_N
  | IFC_INTEGRITY_N
deriving Repr, DecidableEq

open ifc_tag_type

/-- Projection of the tag set named by a tag kind. -/
def ctx_get (c : ifc_context) : ifc_tag_type → List tag_t
  | IFC_SECRECY => c.secrecy
  | IFC_INTEGRITY => c.integrity
  | IFC_SECRECY_P => c.secrecy_p
  | IFC_INTEGRITY_P => c.integrity_p
  | IFC_SECRECY_N => c.secrecy_n
  | IFC_INTEGRITY_N => c.integrity_n

/-- Replacement of the tag set named by a tag kind. -/
def ctx_set (c : ifc_context) (k : ifc_tag_type) (s : List tag_t) : ifc_context :=
  match k with
  | IFC_SECRECY => { c with secrecy := s }
  | IFC_INTEGRITY => { c with integrity := s }
  | IFC_SECRECY_P => { c with secrecy_p := s }
  | IFC_INTEGRITY_P => { c with integrity_p := s }
  | IFC_SECRECY_N => { c with secrecy_n := s }
  | IFC_INTEGRITY_N => { c with integrity_n := s }

/-- Modelled from the spec: `ifc_contains_value` — pure membership test on
one tag set. -/
def ifc_contains_value (s : List tag_t) (t : tag_t) : Bool := s.contains t

/-- Modelled from the spec: insertion into a bounded tag set —
insert-if-absent (no duplicates), failing with the invalid-tag error on the
sentinel and with the capacity error when the set is full. -/
def ifc_add_to_set (s : List tag_t) (t : tag_t) : Int × List tag_t :=
  if ifc_tag_valid t = false then (-EINVAL, s)
  else if ifc_contains_value s t then (0, s)
  else if ifc_label_max ≤ s.length then (-ENOMEM, s)
  else (0, t :: s)

/-- Modelled from the spec: `ifc_add_privilege` / `ifc_add_tag` insert a
tag into the named set of the context, returning 0 on success and a
negative errno on failure. -/
def ifc_add_privilege (c : ifc_context) (k : ifc_tag_type) (t : tag_t) : Int × ifc_context :=
  let r := ifc_add_to_set (ctx_get c k) t
  (r.1, ctx_set c k r.2)

/-- Modelled from the spec: `ifc_remove_privilege` / `ifc_remove_tag` —
remove-if-present, idempotent no-op success when the tag is absent. -/
def ifc_remove_privilege (c : ifc_context) (k : ifc_tag_type) (t : tag_t) : Int × ifc_context :=
  (0, ctx_set c k ((ctx_get c k).filter (fun x => x != t)))

/-- Modelled from the spec: `ifc_is_labelled` — true when any of the tag
sets of the context is non-empty. -/
def ifc_is_labelled (c : ifc_context) : Bool :=
  !c.secrecy.isEmpty || !c.integrity.isEmpty ||
  !c.secrecy_p.isEmpty || !c.integrity_p.isEmpty ||
  !c.secrecy_n.isEmpty || !c.integrity_n.isEmpty

/-- Modelled from the spec: `ifc_create_tag` — the Tag Authority mints a
fresh tag from a monotonic counter, so a tag is never reissued within a
boot session.  The counter starts at 1 so that minted tags are valid. -/
def ifc_create_tag (counter : Nat) : tag_t × Nat := (counter, counter + 1)

/-- The operation discriminator of struct ifc_tag_msg. -/
inductive ifc_op
  | IFC_ADD_TAG
  | IFC_REMOVE_TAG
deriving Repr, DecidableEq

/-- struct ifc_tag_msg: the request format of the self and process
control-plane endpoints. -/
structure ifc_tag_msg where
  op : ifc_op
  tag_type : ifc_tag_type
  tag : tag_t
  pid : Nat
deriving Repr, DecidableEq

/-- Byte size of struct ifc_tag_msg (a concrete stand-in; the endpoints
only compare the user count against it and return it on success). -/
def sizeof_ifc_tag_msg : Nat := 24

/-- Byte size of tag_t. -/
def sizeof_tag_t : Nat := 8

/-- The discriminator of provenance records (prov_type). -/
inductive node_kind
  | MSG_TASK
  | MSG_INODE
  | MSG_MSG
  | MSG_SHM
  | MSG_SOCK
  | MSG_SB
  | MSG_FILE_NAME
  | MSG_ADDR
deriving Repr, DecidableEq

/-- prov_msg_t, flattened: the common node identity (node_id, version and
the kernel flag bits of node_kern — tracked, the privacy-suppression flag
`opq` (named `opaque` in the C struct), name_recorded) together with the
union of the kind-specific metadata fields used by the embedded hooks.
`ifc_snapshot` models the tag sets imported by prov_record_ifc. -/
structure prov_msg where
  kind : node_kind
  node_id : Nat
  tracked : Bool
  opq : Bool
  name_recorded : Bool
  version : Nat
  uid : Nat
  gid : Nat
  mode : Nat
  msg_type : Nat
  sb_uuid : Nat
  ifc_snapshot : Option ifc_context
deriving Repr, DecidableEq

/-- Modelled from the spec: `alloc_provenance` yields a zero-initialized
record of the given kind (the id is assigned separately by set_node_id). -/
def alloc_provenance (k : node_kind) : prov_msg :=
  ⟨k, 0, false, false, false, 0, 0, 0, 0, 0, 0, none⟩

/-- The edge-type vocabulary of the recording protocol. -/
inductive edge_type
  | ED_FORK
  | ED_CHANGE
  | ED_CREATE
  | ED_READ
  | ED_WRITE
  | ED_EXEC
  | ED_OPEN
  | ED_MMAP
  | ED_ATTACH
  | ED_ASSOCIATE
  | ED_BIND
  | ED_CONNECT
  | ED_LISTEN
  | ED_ACCEPT
  | ED_NAMED
  | ED_UNKNOWN
deriving Repr, DecidableEq

open edge_type

/-- A recorded edge: type, source and destination node identifiers (none
models a NULL node pointer handed to the recorder) and the flow flag. -/
structure prov_edge where
  etype : edge_type
  src : Option Nat
  dst : Option Nat
  allowed : Bool
deriving Repr, DecidableEq

/-- FLOW_ALLOWED: every call site of the observed hooks passes allowed. -/
def FLOW_ALLOWED : Bool := true

/-- Node identifier carried by a (possibly NULL) node pointer. -/
def node_ref (p : Option prov_msg) : Option Nat := p.map prov_msg.node_id

/-- One record handed to the provenance log sink. -/
inductive out_rec
  | edge (e : prov_edge)
  | longrec (k : node_kind) (payload : Nat)
  | ledge (t : edge_type) (src : Option Nat) (allowed : Bool)
deriving Repr, DecidableEq

/-- Modelled from the spec: `record_edge` constructs one edge record and
hands it to the sink; a sink failure is never propagated back to the
mediated operation, so the emission itself is infallible here. -/
def record_edge (t : edge_type) (src dst : Option prov_msg) : out_rec :=
  out_rec.edge ⟨t, node_ref src, node_ref dst, FLOW_ALLOWED⟩

/-- Modelled from the spec: `long_record_edge` links a long-form auxiliary
record to its owning node via an edge of the given type. -/
def long_record_edge (t : edge_type) (src : Option prov_msg) : out_rec :=
  out_rec.ledge t (node_ref src) FLOW_ALLOWED

/-- Recognizer for long-form records in the sink stream. -/
def is_longrec : out_rec → Bool
  | out_rec.longrec _ _ => true
  | _ => false

/-- Recognizer for ED_NAMED long-form edges in the sink stream. -/
def is_named_edge : out_rec → Bool
  | out_rec.ledge ED_NAMED _ _ => true
  | _ => false

/-- Number of long-form records in a sink stream. -/
def count_long (l : List out_rec) : Nat := (l.filter is_longrec).length

/-- Number of ED_NAMED edges in a sink stream. -/
def count_named (l : List out_rec) : Nat := (l.filter is_named_edge).length

/-- True when a record references no absent (NULL) node endpoint. -/
def endpoints_present : out_rec → Bool
  | out_rec.edge e => e.src.isSome && e.dst.isSome
  | out_rec.longrec _ _ => true
  | out_rec.ledge _ s _ => s.isSome

/-- True when no record of the stream references an absent node. -/
def all_endpoints_present (l : List out_rec) : Bool := l.all endpoints_present

/-- Association-list lookup by numeric key (first match wins), standing in
for the kernel's lookup-by-identifier facilities. -/
def assoc_find {β : Type} (c : Nat) : List (Nat × β) → Option β
  | [] => none
  | e :: t => if e.1 = c then some e.2 else assoc_find c t

/-- Association-list update: every entry with the given key gets the new
value (keys are unique in the states this development builds). -/
def assoc_update {β : Type} (l : List (Nat × β)) (c : Nat) (b : β) : List (Nat × β) :=
  l.map (fun e => if e.1 = c then (c, b) else e)

/-- context_from_pid (security/ifc/fs.c): resolve a process identifier to
the IFC context of its live credential, or NULL when no such task exists.
The process table is passed explicitly; the lookup facility itself is an
external collaborator. -/
def context_from_pid (table : List (Nat × ifc_context)) (pid : Nat) : Option ifc_context :=
  assoc_find pid table

/-- ifc_write_process (security/ifc/fs.c): the cross-process tag-mutate
endpoint.  Returns the ssize_t result, the process table after the call
(mutation through the target's context pointer is modelled as an update of
the table entry) and the list of provenance records emitted by the
endpoint (fs.c contains no record_edge call, so this component is the
empty stream on every path, made explicit so that no-edge-emitted claims
can be stated). -/
def ifc_write_process (cifc : ifc_context) (table : List (Nat × ifc_context))
    (count : Nat) (msg : ifc_tag_msg) : Int × List (Nat × ifc_context) × List out_rec :=
  if count < sizeof_ifc_tag_msg then (-ENOMEM, table, [])
  else if ifc_tag_valid msg.tag = false then (-EINVAL, table, [])
  else
    match context_from_pid table msg.pid with
    | none => (-EINVAL, table, [])
    | some oifc =>
      if msg.op = ifc_op.IFC_ADD_TAG then
        match msg.tag_type with
        | IFC_SECRECY_P =>
          if ifc_contains_value cifc.secrecy_p msg.tag = false then (-EPERM, table, [])
          else
            let r := ifc_add_privilege oifc IFC_SECRECY_P msg.tag
            (if r.1 = 0 then (sizeof_ifc_tag_msg : Int) else r.1,
             assoc_update table msg.pid r.2, [])
        | IFC_INTEGRITY_P =>
          if ifc_contains_value cifc.integrity_p msg.tag = false then (-EPERM, table, [])
          else
            let r := ifc_add_privilege oifc IFC_INTEGRITY_P msg.tag
            (if r.1 = 0 then (sizeof_ifc_tag_msg : Int) else r.1,
             assoc_update table msg.pid r.2, [])
        | IFC_SECRECY_N =>
          if ifc_contains_value cifc.secrecy_n msg.tag = false then (-EPERM, table, [])
          else
            let r := ifc_add_privilege oifc IFC_SECRECY_N msg.tag
            (if r.1 = 0 then (sizeof_ifc_tag_msg : Int) else r.1,
             assoc_update table msg.pid r.2, [])
        | IFC_INTEGRITY_N =>
          if ifc_contains_value cifc.integrity_n msg.tag = false then (-EPERM, table, [])
          else
            let r := ifc_add_privilege oifc IFC_INTEGRITY_N msg.tag
            (if r.1 = 0 then (sizeof_ifc_tag_msg : Int) else r.1,
             assoc_update table msg.pid r.2, [])
        | _ => (-EINVAL, table, [])
      else (-EINVAL, table, [])

/-- ifc_read_tag (security/ifc/fs.c): the fresh-tag mint endpoint.  Mints
a tag, ORs the results of the four privilege grants into rv, and only then
copies the tag back to the caller; `copy_ok` models whether copy_to_user
succeeds.  Returns the ssize_t result, the caller's context after the call
and the tag counter after the call. -/
def ifc_read_tag (cifc : ifc_context) (counter : Nat) (count : Nat)
    (copy_ok : Bool) : Int × ifc_context × Nat :=
  if count < sizeof_tag_t then (-ENOMEM, cifc, counter)
  else
    let tc := ifc_create_tag counter
    let r1 := ifc_add_privilege cifc IFC_SECRECY_P tc.1
    let r2 := ifc_add_privilege r1.2 IFC_INTEGRITY_P tc.1
    let r3 := ifc_add_privilege r2.2 IFC_SECRECY_N tc.1
    let r4 := ifc_add_privilege r3.2 IFC_INTEGRITY_N tc.1
    let rv : Int := ((r1.1.lor r2.1).lor r3.1).lor r4.1
    if rv < 0 then (rv, r4.2, tc.2)
    else if copy_ok = false then (-EAGAIN, r4.2, tc.2)
    else ((sizeof_tag_t : Int), r4.2, tc.2)

/-- provenance_cred_alloc_blank (hooks.c): allocate a task node with a
freshly assigned identifier drawn from the monotonic node-id counter
(set_node_id with ASSIGN_NODE_ID, modelled from the spec) and the
credential's euid/egid.  `alloc_ok` models whether alloc_provenance
succeeds.  Returns (errno, node attached to the credential, counter). -/
def provenance_cred_alloc_blank (counter : Nat) (euid egid : Nat)
    (alloc_ok : Bool) : Int × Option prov_msg × Nat :=
  if alloc_ok = false then (-ENOMEM, none, counter)
  else
    let p := { alloc_provenance node_kind.MSG_TASK with
               node_id := counter, uid := euid, gid := egid }
    (0, some p, counter + 1)

/-- provenance_cred_prepare (hooks.c): allocate a task node with a fresh
identifier, copy the new credential's euid/egid, mark it tracked and
snapshot the tag sets when the new credential's IFC context is labelled
(CONFIG_SECURITY_IFC), then record a FORK edge from the old credential's
node.  Returns (errno, new node, counter, emitted records). -/
def provenance_cred_prepare (counter : Nat) (old_prov : Option prov_msg)
    (new_ifc : ifc_context) (euid egid : Nat) (alloc_ok : Bool) :
    Int × Option prov_msg × Nat × List out_rec :=
  if alloc_ok = false then (-ENOMEM, none, counter, [])
  else
    let p0 := { alloc_provenance node_kind.MSG_TASK with
                node_id := counter, uid := euid, gid := egid }
    let p1 := if ifc_is_labelled new_ifc then
                { p0 with tracked := true, ifc_snapshot := some new_ifc }
              else p0
    (0, some p1, counter + 1, [record_edge ED_FORK old_prov (some p1)])

/-- provenance_cred_transfer (hooks.c): a whole-record structure copy of
the old credential's node into the new credential's node storage
(`*prov = *old_prov`), identifier included. -/
def provenance_cred_transfer (old_prov : prov_msg) : prov_msg := old_prov

/-- provenance_task_fix_setuid (hooks.c): record a CHANGE edge from the
old credential's node to the new one. -/
def provenance_task_fix_setuid (new_prov old_prov : Option prov_msg) : Int × List out_rec :=
  (0, [record_edge ED_CHANGE old_prov new_prov])

/-- The host inode fields the embedded hooks read: stable inode number,
ownership, mode, the owning superblock node's uuid, the IS_PRIVATE flag
and the inode's IFC context (inode_get_ifc). -/
structure inode_meta where
  i_ino : Nat
  i_uid : Nat
  i_gid : Nat
  i_mode : Nat
  sb_uuid : Nat
  is_private : Bool
  ifc : ifc_context
deriving Repr, DecidableEq

/-- provenance_inode_alloc_security (hooks.c): allocate the inode node
under the stable identifier i_ino, copy uid/gid/mode and the superblock
uuid, mark/snapshot when the inode's IFC context is labelled, and record
a CREATE edge from the current task's node.  Returns (errno, node,
emitted records). -/
def provenance_inode_alloc_security (cprov : prov_msg) (ino : inode_meta)
    (alloc_ok : Bool) : Int × Option prov_msg × List out_rec :=
  if alloc_ok = false then (-ENOMEM, none, [])
  else
    let p0 := { alloc_provenance node_kind.MSG_INODE with
                node_id := ino.i_ino, uid := ino.i_uid, gid := ino.i_gid,
                mode := ino.i_mode, sb_uuid := ino.sb_uuid }
    let p1 := if ifc_is_labelled ino.ifc then
                { p0 with tracked := true, ifc_snapshot := some ino.ifc }
              else p0
    (0, some p1, [record_edge ED_CREATE (some cprov) (some p1)])

/-- Result of the inode free path: the identifiers of records actually
handed to free_provenance, the number of free_provenance invocations on a
NULL pointer, and the inode's provenance field afterwards. -/
structure free_result where
  released : List Nat
  null_free : Nat
  field_after : Option prov_msg
deriving Repr, DecidableEq

/-- provenance_inode_free_security (hooks.c), verbatim control flow: the
guard is written `if(!prov) free_provenance(prov);`, so free_provenance
runs only when the fetched record is NULL; the field is then cleared. -/
def provenance_inode_free_security (iprov : Option prov_msg) : free_result :=
  match iprov with
  | some _ => ⟨[], 0, none⟩
  | none => ⟨[], 1, none⟩

/-- Linux permission-mask bits used by the hooks. -/
def MAY_EXEC : Nat := 1

/-- MAY_WRITE permission bit. -/
def MAY_WRITE : Nat := 2

/-- MAY_READ permission bit. -/
def MAY_READ : Nat := 4

/-- MAY_APPEND permission bit. -/
def MAY_APPEND : Nat := 8

/-- mmap PROT_READ bit. -/
def PROT_READ : Nat := 1

/-- mmap PROT_WRITE bit. -/
def PROT_WRITE : Nat := 2

/-- mmap PROT_EXEC bit. -/
def PROT_EXEC : Nat := 4

/-- shmat SHM_RDONLY flag. -/
def SHM_RDONLY : Nat := 4096

/-- Result of a file/inode hook: return value, the inode's node after the
hook, the caller's node after the hook (version bumps), the emitted
records, and whether the hook dereferenced an absent node (a kernel
fault; fields then reflect the state at the fault point). -/
structure hook_result where
  ret : Int
  iprov : Option prov_msg
  cprov : prov_msg
  log : List out_rec
  fault : Bool
deriving Repr, DecidableEq

/-- provenance_inode_permission (hooks.c): IS_PRIVATE inodes are skipped;
a missing node is repaired via provenance_inode_alloc_security (its return
value is ignored); then WRITE/READ/EXEC edges are recorded according to
the permission mask. -/
def provenance_inode_permission (cprov : prov_msg) (ino : inode_meta)
    (iprov0 : Option prov_msg) (mask : Nat) (alloc_ok : Bool) : hook_result :=
  if ino.is_private then ⟨0, iprov0, cprov, [], false⟩
  else
    let rep : Option prov_msg × List out_rec :=
      match iprov0 with
      | none =>
        let a := provenance_inode_alloc_security cprov ino alloc_ok
        (a.2.1, a.2.2)
      | some p => (some p, [])
    let iprov1 := rep.1
    let m := mask &&& (MAY_READ ||| MAY_WRITE ||| MAY_EXEC ||| MAY_APPEND)
    let l2 := if m &&& (MAY_WRITE ||| MAY_APPEND) ≠ 0 then
                [record_edge ED_WRITE (some cprov) iprov1] else []
    let l3 := if m &&& MAY_READ ≠ 0 then
                [record_edge ED_READ iprov1 (some cprov)] else []
    let l4 := if m &&& MAY_EXEC ≠ 0 then
                [record_edge ED_EXEC iprov1 (some cprov)] else []
    ⟨0, iprov1, cprov, rep.2 ++ l2 ++ l3 ++ l4, false⟩

/-- Result of the one-time name/address capture path. -/
structure name_cap_result where
  node : Option prov_msg
  log : List out_rec
  fault : Bool
deriving Repr, DecidableEq

/-- provenance_record_file_name (hooks.c): reads the inode's node without
a NULL check (an absent node faults), and when the node is tracked and
its name not yet recorded emits one MSG_FILE_NAME long record plus one
ED_NAMED edge and flips name_recorded; otherwise a no-op. -/
def provenance_record_file_name (iprov0 : Option prov_msg) (pathname : Nat) : name_cap_result :=
  match iprov0 with
  | none => ⟨none, [], true⟩
  | some ip =>
    if ip.name_recorded = false && ip.tracked = true then
      ⟨some { ip with name_recorded := true },
       [out_rec.longrec node_kind.MSG_FILE_NAME pathname,
        long_record_edge ED_NAMED (some ip)], false⟩
    else ⟨some ip, [], false⟩

/-- Two sequential invocations of the file-name capture path on the same
inode, concatenating the emitted streams. -/
def record_file_name_twice (iprov0 : Option prov_msg) (pathname : Nat) : name_cap_result :=
  let r1 := provenance_record_file_name iprov0 pathname
  let r2 := provenance_record_file_name r1.node pathname
  ⟨r2.node, r1.log ++ r2.log, r1.fault || r2.fault⟩

/-- provenance_file_open (hooks.c): repair a missing inode node, run the
one-time name capture, then record an OPEN edge from the inode node to
the caller. -/
def provenance_file_open (cprov : prov_msg) (ino : inode_meta)
    (iprov0 : Option prov_msg) (pathname : Nat) (alloc_ok : Bool) : hook_result :=
  let rep : Option prov_msg × List out_rec :=
    match iprov0 with
    | none =>
      let a := provenance_inode_alloc_security cprov ino alloc_ok
      (a.2.1, a.2.2)
    | some p => (some p, [])
  let nc := provenance_record_file_name rep.1 pathname
  if nc.fault then ⟨0, rep.1, cprov, rep.2, true⟩
  else ⟨0, nc.node, cprov, rep.2 ++ nc.log ++ [record_edge ED_OPEN nc.node (some cprov)], false⟩

/-- provenance_file_ioctl (hooks.c): repair a missing inode node, run the
one-time name capture, then record a WRITE edge and bump the inode node's
version, and a READ edge and bump the caller's version (the modelled
bidirectional exchange). -/
def provenance_file_ioctl (cprov : prov_msg) (ino : inode_meta)
    (iprov0 : Option prov_msg) (pathname : Nat) (alloc_ok : Bool) : hook_result :=
  let rep : Option prov_msg × List out_rec :=
    match iprov0 with
    | none =>
      let a := provenance_inode_alloc_security cprov ino alloc_ok
      (a.2.1, a.2.2)
    | some p => (some p, [])
  let nc := provenance_record_file_name rep.1 pathname
  if nc.fault then ⟨0, rep.1, cprov, rep.2, true⟩
  else
    let ip2 := nc.node.map (fun p => { p with version := p.version + 1 })
    ⟨0, ip2, { cprov with version := cprov.version + 1 },
     rep.2 ++ nc.log ++ [record_edge ED_WRITE (some cprov) nc.node,
                         record_edge ED_READ ip2 (some cprov)], false⟩

/-- provenance_mmap_file (hooks.c): a NULL file (anonymous mapping) is a
legitimate no-op; otherwise the name-capture path runs first — with no
repair of a missing inode node — and then MMAP edges are recorded
according to the protection bits. -/
def provenance_mmap_file (cprov : prov_msg) (file : Option inode_meta)
    (iprov0 : Option prov_msg) (pathname : Nat) (prot : Nat) : hook_result :=
  match file with
  | none => ⟨0, iprov0, cprov, [], false⟩
  | some _ =>
    let nc := provenance_record_file_name iprov0 pathname
    if nc.fault then ⟨0, iprov0, cprov, nc.log, true⟩
    else
      let p := prot &&& (PROT_EXEC ||| PROT_READ ||| PROT_WRITE)
      let l2 := if p &&& (PROT_WRITE ||| PROT_EXEC) ≠ 0 then
                  [record_edge ED_MMAP (some cprov) nc.node] else []
      let l3 := if p &&& (PROT_READ ||| PROT_EXEC ||| PROT_WRITE) ≠ 0 then
                  [record_edge ED_MMAP nc.node (some cprov)] else []
      ⟨0, nc.node, cprov, nc.log ++ l2 ++ l3, false⟩

/-- Result of an object-allocation hook: errno, the node attached to the
object, the node-id counter, the emitted records, and whether the hook
dereferenced a NULL IFC pointer (a kernel fault). -/
structure alloc_result where
  ret : Int
  node : Option prov_msg
  counter : Nat
  log : List out_rec
  null_deref : Bool
deriving Repr, DecidableEq

/-- provenance_msg_msg_alloc_security (hooks.c), verbatim control flow:
the CONFIG_SECURITY_IFC block reads `if(!ifc){ if(ifc_is_labelled(&ifc->context)) ... }`,
so when the message's ifc pointer is non-NULL the tracked-marking and
snapshot are skipped outright, and when it is NULL the labelled test
dereferences the NULL pointer (fields then reflect the fault point). -/
def provenance_msg_msg_alloc_security (counter : Nat) (cprov : prov_msg)
    (m_type : Nat) (ifc : Option ifc_context) (alloc_ok : Bool) : alloc_result :=
  if alloc_ok = false then ⟨-ENOMEM, none, counter, [], false⟩
  else
    let p0 := { alloc_provenance node_kind.MSG_MSG with
                node_id := counter, msg_type := m_type }
    match ifc with
    | none => ⟨0, some p0, counter + 1, [], true⟩
    | some _ => ⟨0, some p0, counter + 1, [record_edge ED_CREATE (some cprov) (some p0)], false⟩

/-- provenance_shm_alloc_security (hooks.c), verbatim control flow: same
inverted `if(!ifc)` test as the message hook, then two ATTACH edges are
recorded between the segment node and the caller. -/
def provenance_shm_alloc_security (counter : Nat) (cprov : prov_msg)
    (shm_mode : Nat) (ifc : Option ifc_context) (alloc_ok : Bool) : alloc_result :=
  if alloc_ok = false then ⟨-ENOMEM, none, counter, [], false⟩
  else
    let p0 := { alloc_provenance node_kind.MSG_SHM with
                node_id := counter, mode := shm_mode }
    match ifc with
    | none => ⟨0, some p0, counter + 1, [], true⟩
    | some _ => ⟨0, some p0, counter + 1,
                 [record_edge ED_ATTACH (some p0) (some cprov),
                  record_edge ED_ATTACH (some cprov) (some p0)], false⟩

/-- provenance_msg_queue_msgsnd (hooks.c): a WRITE edge from the calling
task's credential node to the message node. -/
def provenance_msg_queue_msgsnd (cprov mprov : Option prov_msg) : Int × List out_rec :=
  (0, [record_edge ED_WRITE cprov mprov])

/-- provenance_msg_queue_msgrcv (hooks.c): the recording context is
resolved from the target (recipient) task's credential
(`target->cred->provenance`), not from the calling task, and a READ edge
is recorded from the message node to it.  The calling task's node is
passed here to make the non-dependence provable. -/
def provenance_msg_queue_msgrcv (current_prov : Option prov_msg)
    (target_prov : Option prov_msg) (mprov : Option prov_msg) : Int × List out_rec :=
  (0, [record_edge ED_READ mprov target_prov])

/-- provenance_shm_shmat (hooks.c): fails with ENOMEM when the segment
carries no node; otherwise one ATTACH edge for a read-only attach and two
(both directions) otherwise. -/
def provenance_shm_shmat (cprov : prov_msg) (sprov : Option prov_msg)
    (shmflg : Nat) : Int × List out_rec :=
  match sprov with
  | none => (-ENOMEM, [])
  | some sp =>
    if shmflg &&& SHM_RDONLY ≠ 0 then
      (0, [record_edge ED_ATTACH (some sp) (some cprov)])
    else
      (0, [record_edge ED_ATTACH (some sp) (some cprov),
           record_edge ED_ATTACH (some cprov) (some sp)])

/-- provenance_record_address (hooks.c): the socket analogue of the
file-name capture — one MSG_ADDR long record plus one ED_NAMED edge on
the first call for a tracked socket node, then the name_recorded flip. -/
def provenance_record_address (skprov0 : Option prov_msg) (addr : Nat) : name_cap_result :=
  match skprov0 with
  | none => ⟨none, [], true⟩
  | some sk =>
    if sk.name_recorded = false && sk.tracked = true then
      ⟨some { sk with name_recorded := true },
       [out_rec.longrec node_kind.MSG_ADDR addr,
        long_record_edge ED_NAMED (some sk)], false⟩
    else ⟨some sk, [], false⟩

/-- Two sequential invocations of the address capture path on the same
socket, concatenating the emitted streams. -/
def record_address_twice (skprov0 : Option prov_msg) (addr : Nat) : name_cap_result :=
  let r1 := provenance_record_address skprov0 addr
  let r2 := provenance_record_address r1.node addr
  ⟨r2.node, r1.log ++ r2.log, r1.fault || r2.fault⟩

/-- provenance_socket_bind (hooks.c): an opaque-flagged caller suppresses
everything (success, no records); a missing socket node fails with
ENOMEM; otherwise address capture then a BIND edge.  Returns (errno,
socket node after, emitted records). -/
def provenance_socket_bind (cprov : prov_msg) (skprov0 : Option prov_msg)
    (addr : Nat) : Int × Option prov_msg × List out_rec :=
  if cprov.opq then (0, skprov0, [])
  else
    match skprov0 with
    | none => (-ENOMEM, none, [])
    | some sk =>
      let nc := provenance_record_address (some sk) addr
      (0, nc.node, nc.log ++ [record_edge ED_BIND (some cprov) nc.node])

/-- provenance_socket_connect (hooks.c): identical shape to bind with a
CONNECT edge. -/
def provenance_socket_connect (cprov : prov_msg) (skprov0 : Option prov_msg)
    (addr : Nat) : Int × Option prov_msg × List out_rec :=
  if cprov.opq then (0, skprov0, [])
  else
    match skprov0 with
    | none => (-ENOMEM, none, [])
    | some sk =>
      let nc := provenance_record_address (some sk) addr
      (0, nc.node, nc.log ++ [record_edge ED_CONNECT (some cprov) nc.node])

/-- The credential operations whose interaction claim C8 quantifies over. -/
inductive cred_op
  | alloc_blank (c uid gid : Nat)
  | prepare (newc oldc uid gid : Nat) (fc : ifc_context)
  | transfer (newc oldc : Nat)
deriving Repr, DecidableEq

/-- True for the transfer operation. -/
def cred_op.is_transfer : cred_op → Bool
  | cred_op.transfer _ _ => true
  | _ => false

/-- The machine state the credential hooks act on: the node-id counter and
the map from live credential handles to their provenance nodes. -/
structure cred_state where
  counter : Nat
  creds : List (Nat × prov_msg)
deriving Repr, DecidableEq

/-- The provenance node currently attached to a credential handle. -/
def cred_lookup (s : cred_state) (c : Nat) : Option prov_msg :=
  assoc_find c s.creds

/-- One credential hook invocation (allocations succeed; transfer follows
`*prov = *old_prov` when both records exist, as the host guarantees). -/
def cred_step (s : cred_state) : cred_op → cred_state
  | cred_op.alloc_blank c uid gid =>
    let r := provenance_cred_alloc_blank s.counter uid gid true
    match r.2.1 with
    | some p => ⟨r.2.2, (c, p) :: s.creds⟩
    | none => ⟨r.2.2, s.creds⟩
  | cred_op.prepare newc oldc uid gid fc =>
    let r := provenance_cred_prepare s.counter (cred_lookup s oldc) fc uid gid true
    match r.2.1 with
    | some p => ⟨r.2.2.1, (newc, p) :: s.creds⟩
    | none => ⟨r.2.2.1, s.creds⟩
  | cred_op.transfer newc oldc =>
    match cred_lookup s oldc, cred_lookup s newc with
    | some oldp, some _ => ⟨s.counter, assoc_update s.creds newc (provenance_cred_transfer oldp)⟩
    | _, _ => s

/-- The boot-time initial state: no credentials, counter at zero. -/
def cred_init : cred_state := ⟨0, []⟩

/-- Run a sequence of credential operations from a state. -/
def cred_run (s : cred_state) (ops : List cred_op) : cred_state :=
  ops.foldl cred_step s

/-- A plain (untracked, non-opaque) task node used as a concrete input. -/
def task0 : prov_msg := { alloc_provenance node_kind.MSG_TASK with node_id := 100 }

/-- The same task node with the privacy-suppression flag set. -/
def opaque_task : prov_msg := { task0 with opq := true }

/-- A plain untracked inode node under the stable id 50. -/
def inode_node0 : prov_msg := { alloc_provenance node_kind.MSG_INODE with node_id := 50 }

/-- A tracked inode node whose name is not yet recorded. -/
def tracked_inode_node : prov_msg := { inode_node0 with tracked := true }

/-- A concrete non-private inode with an unlabelled IFC context. -/
def sample_inode : inode_meta := ⟨50, 0, 0, 0, 0, false, empty_ifc⟩

/-- A labelled IFC context (one secrecy tag). -/
def lab_ctx : ifc_context := { empty_ifc with secrecy := [5] }

/-- True for the four privilege tag kinds handled by the cross-process
endpoint's switch. -/
def is_privilege_kind : ifc_tag_type → Bool
  | IFC_SECRECY_P => true
  | IFC_INTEGRITY_P => true
  | IFC_SECRECY_N => true
  | IFC_INTEGRITY_N => true
  | _ => false

/-- The id-uniqueness invariant of the credential map: every attached node
identifier is below the counter, and nodes attached to distinct handles
carry distinct identifiers. -/
def creds_ok (s : cred_state) : Prop :=
  (∀ e ∈ s.creds, e.2.node_id < s.counter) ∧
  (∀ a ∈ s.creds, ∀ b ∈ s.creds, a.1 ≠ b.1 → a.2.node_id ≠ b.2.node_id)

theorem ctx_get_set_same (c : ifc_context) (k : ifc_tag_type) (s : List tag_t) :
    ctx_get (ctx_set c k s) k = s := by
  cases k <;> rfl

theorem ctx_get_set_other (c : ifc_context) (k k2 : ifc_tag_type) (s : List tag_t)
    (h : k2 ≠ k) : ctx_get (ctx_set c k s) k2 = ctx_get c k2 := by
  cases k <;> cases k2 <;> first | exact absurd rfl h | rfl

theorem add_priv_ok (c : ifc_context) (k : ifc_tag_type) (t : tag_t)
    (ht : ifc_tag_valid t = true) (hlen : (ctx_get c k).length < ifc_label_max) :
    (ifc_add_privilege c k t).1 = 0 ∧
    ifc_contains_value (ctx_get (ifc_add_privilege c k t).2 k) t = true ∧
    (∀ k2, k2 ≠ k → ctx_get (ifc_add_privilege c k t).2 k2 = ctx_get c k2) := by
  unfold ifc_add_privilege ifc_add_to_set
  by_cases hc : ifc_contains_value (ctx_get c k) t = true
  · refine ⟨by simp [ht, hc], ?_, ?_⟩
    · rw [ht]
      simp only [Bool.true_eq_false, if_false, hc, if_true]
      rw [ctx_get_set_same]
      exact hc
    · intro k2 hk2
      rw [ht]
      simp only [Bool.true_eq_false, if_false, hc, if_true]
      exact ctx_get_set_other c k k2 _ hk2
  · have hle : ¬ ifc_label_max ≤ (ctx_get c k).length := by omega
    refine ⟨by simp [ht, hc, hle], ?_, ?_⟩
    · rw [ht]
      simp only [Bool.true_eq_false, if_false, hc, hle]
      rw [ctx_get_set_same]
      simp [ifc_contains_value]
    · intro k2 hk2
      rw [ht]
      simp only [Bool.true_eq_false, if_false, hc, hle]
      exact ctx_get_set_other c k k2 _ hk2

/-- C9: on message-queue receive the recorded edge is READ from the
message node to the recipient subject's credential node, resolved from
the target task's credential and independent of the calling task; on send
the edge is WRITE from the caller's credential node to the message node. -/
theorem claim_C9 :
    (∀ cur tgt m, provenance_msg_queue_msgrcv cur tgt m =
       (0, [out_rec.edge ⟨ED_READ, node_ref m, node_ref tgt, FLOW_ALLOWED⟩])) ∧
    (∀ cur cur2 tgt m,
       provenance_msg_queue_msgrcv cur tgt m = provenance_msg_queue_msgrcv cur2 tgt m) ∧
    (∀ c m, provenance_msg_queue_msgsnd c m =
       (0, [out_rec.edge ⟨ED_WRITE, node_ref c, node_ref m, FLOW_ALLOWED⟩])) :=
  ⟨fun _ _ _ => rfl, fun _ _ _ _ => rfl, fun _ _ => rfl⟩

/-- C3: the inode free path's guard is inverted (`if(!prov)
free_provenance(prov)`), so a present provenance record is never handed to
the deallocator (it is leaked) while the deallocator is invoked on the
NULL pointer exactly when the record is absent — the code contradicts the
claimed non-null-guarded release. -/
theorem claim_C3 :
    (provenance_inode_free_security (some inode_node0)).released = [] ∧
    (provenance_inode_free_security (some inode_node0)).released.length ≠ 1 ∧
    (provenance_inode_free_security none).null_free = 1 := by
  decide

/-- C4: the message and shared-memory allocation hooks test `if(!ifc)`
before dereferencing `ifc`, so an object that does carry a labelled IFC
context is left untracked with no snapshot (and an absent context is
dereferenced), while credential prepare implements the claimed behavior
correctly. -/
theorem claim_C4 :
    ((provenance_msg_msg_alloc_security 0 task0 7 (some lab_ctx) true).node.map prov_msg.tracked)
        = some false ∧
    ((provenance_msg_msg_alloc_security 0 task0 7 (some lab_ctx) true).node.map prov_msg.ifc_snapshot)
        = some none ∧
    (provenance_msg_msg_alloc_security 0 task0 7 none true).null_deref = true ∧
    ((provenance_shm_alloc_security 0 task0 6 (some lab_ctx) true).node.map prov_msg.tracked)
        = some false ∧
    ((provenance_shm_alloc_security 0 task0 6 (some lab_ctx) true).node.map prov_msg.ifc_snapshot)
        = some none ∧
    (provenance_shm_alloc_security 0 task0 6 none true).null_deref = true ∧
    ifc_is_labelled lab_ctx = true ∧
    ((provenance_cred_prepare 0 (some task0) lab_ctx 0 0 true).2.1.map prov_msg.tracked)
        = some true ∧
    ((provenance_cred_prepare 0 (some task0) lab_ctx 0 0 true).2.1.map prov_msg.ifc_snapshot)
        = some (some lab_ctx) := by
  decide

/-- C6: mmap_file does not repair a missing inode node — its name-capture
path dereferences the absent record (fault) and no node is allocated —
while the inode-permission, file-open and ioctl hooks do allocate the
node on demand and record only edges whose endpoints are present. -/
theorem claim_C6 :
    (provenance_mmap_file task0 (some sample_inode) none 3 PROT_READ).fault = true ∧
    (provenance_mmap_file task0 (some sample_inode) none 3 PROT_READ).iprov = none ∧
    (provenance_inode_permission task0 sample_inode none MAY_READ true).fault = false ∧
    ((provenance_inode_permission task0 sample_inode none MAY_READ true).iprov).isSome = true ∧
    all_endpoints_present (provenance_inode_permission task0 sample_inode none MAY_READ true).log
        = true ∧
    (provenance_file_open task0 sample_inode none 3 true).fault = false ∧
    ((provenance_file_open task0 sample_inode none 3 true).iprov).isSome = true ∧
    all_endpoints_present (provenance_file_open task0 sample_inode none 3 true).log = true ∧
    (provenance_file_ioctl task0 sample_inode none 3 true).fault = false ∧
    ((provenance_file_ioctl task0 sample_inode none 3 true).iprov).isSome = true ∧
    all_endpoints_present (provenance_file_ioctl task0 sample_inode none 3 true).log = true := by
  decide

/-- C5 (amended): on a tracked node whose name is not yet recorded, two
sequential invocations of the name capture path (file name, and likewise
socket address) emit exactly one long-form record and exactly one
ED_NAMED edge and leave name_recorded set; once name_recorded is set the
capture path is a strict no-op, so the flag flips false to true at most
once over the node's lifetime. -/
theorem claim_C5 :
    (∀ (n : prov_msg) (p : Nat), n.tracked = true → n.name_recorded = false →
       count_long (record_file_name_twice (some n) p).log = 1 ∧
       count_named (record_file_name_twice (some n) p).log = 1 ∧
       ((record_file_name_twice (some n) p).node.map prov_msg.name_recorded) = some true) ∧
    (∀ (n : prov_msg) (p : Nat), n.name_recorded = true →
       provenance_record_file_name (some n) p = ⟨some n, [], false⟩) ∧
    (∀ (n : prov_msg) (p : Nat), n.tracked = true → n.name_recorded = false →
       count_long (record_address_twice (some n) p).log = 1 ∧
       count_named (record_address_twice (some n) p).log = 1 ∧
       ((record_address_twice (some n) p).node.map prov_msg.name_recorded) = some true) ∧
    (∀ (n : prov_msg) (p : Nat), n.name_recorded = true →
       provenance_record_address (some n) p = ⟨some n, [], false⟩) := by
  refine ⟨?_, ?_, ?_, ?_⟩
  · intro n p ht hr
    simp [record_file_name_twice, provenance_record_file_name, ht, hr,
          count_long, count_named, is_longrec, is_named_edge, long_record_edge]
  · intro n p hr
    simp [provenance_record_file_name, hr]
  · intro n p ht hr
    simp [record_address_twice, provenance_record_address, ht, hr,
          count_long, count_named, is_longrec, is_named_edge, long_record_edge]
  · intro n p hr
    simp [provenance_record_address, hr]

/-- Witness for C5 at a tracked inode node with an unrecorded name. -/
theorem claim_C5_witness :
    (count_long (record_file_name_twice (some tracked_inode_node) 3).log = 1 ∧
     count_named (record_file_name_twice (some tracked_inode_node) 3).log = 1 ∧
     ((record_file_name_twice (some tracked_inode_node) 3).node.map prov_msg.name_recorded)
         = some true) ∧
    provenance_record_file_name (some { tracked_inode_node with name_recorded := true }) 3 =
      ⟨some { tracked_inode_node with name_recorded := true }, [], false⟩ :=
  ⟨claim_C5.1 tracked_inode_node 3 rfl rfl,
   claim_C5.2.1 { tracked_inode_node with name_recorded := true } 3 rfl⟩

/-- Counterexample for C5 as stated: on an untracked node, invoking the
name capture path twice emits zero long-form records and zero ED_NAMED
edges, not exactly one. -/
theorem claim_C5_cex :
    inode_node0.tracked = false ∧
    inode_node0.name_recorded = false ∧
    count_long (record_file_name_twice (some inode_node0) 3).log = 0 ∧
    count_named (record_file_name_twice (some inode_node0) 3).log = 0 ∧
    (0 : Nat) ≠ 1 := by
  decide

theorem creds_ok_cons (s : cred_state) (c : Nat) (p : prov_msg)
    (hid : p.node_id = s.counter) (h : creds_ok s) :
    creds_ok ⟨s.counter + 1, (c, p) :: s.creds⟩ := by
  constructor
  · intro e he
    rcases List.mem_cons.mp he with rfl | he2
    · simp only [hid]
      exact Nat.lt_succ_self s.counter
    · exact Nat.lt_succ_of_lt (h.1 e he2)
  · intro a ha b hb hne
    rcases List.mem_cons.mp ha with rfl | ha2 <;> rcases List.mem_cons.mp hb with rfl | hb2
    · exact absurd rfl hne
    · have := h.1 b hb2
      simp only [hid]
      omega
    · have := h.1 a ha2
      simp only [hid]
      omega
    · exact h.2 a ha2 b hb2 hne

theorem cred_step_preserves (s : cred_state) (op : cred_op)
    (hop : op.is_transfer = false) (h : creds_ok s) : creds_ok (cred_step s op) := by
  cases op with
  | alloc_blank c uid gid =>
    exact creds_ok_cons s c _ rfl h
  | prepare newc oldc uid gid fc =>
    have hstep : cred_step s (cred_op.prepare newc oldc uid gid fc) =
        ⟨s.counter + 1,
         (newc, if ifc_is_labelled fc then
                  { { alloc_provenance node_kind.MSG_TASK with
                      node_id := s.counter, uid := uid, gid := gid } with
                    tracked := true, ifc_snapshot := some fc }
                else { alloc_provenance node_kind.MSG_TASK with
                       node_id := s.counter, uid := uid, gid := gid }) :: s.creds⟩ := rfl
    rw [hstep]
    refine creds_ok_cons s newc _ ?_ h
    split <;> rfl
  | transfer newc oldc =>
    simp [cred_op.is_transfer] at hop

theorem cred_run_preserves (ops : List cred_op) (s : cred_state)
    (hops : ∀ op ∈ ops, op.is_transfer = false) (h : creds_ok s) :
    creds_ok (cred_run s ops) := by
  induction ops generalizing s with
  | nil => exact h
  | cons op t ih =>
    exact ih (cred_step s op) (fun o ho => hops o (List.mem_cons_of_mem _ ho))
      (cred_step_preserves s op (hops op (List.mem_cons_self _ _)) h)

theorem assoc_find_mem {β : Type} (c : Nat) (l : List (Nat × β)) (b : β)
    (h : assoc_find c l = some b) : (c, b) ∈ l := by
  induction l with
  | nil => simp [assoc_find] at h
  | cons e t ih =>
    simp only [assoc_find] at h
    by_cases he : e.1 = c
    · rw [if_pos he] at h
      obtain ⟨e1, e2⟩ := e
      obtain rfl := Option.some.inj h
      subst he
      exact List.mem_cons_self _ _
    · rw [if_neg he] at h
      exact List.mem_cons_of_mem _ (ih h)

/-- C8 (amended): over any sequence of credential allocate-blank and
prepare operations (no transfer), nodes attached to distinct credential
handles carry distinct node identifiers — fresh assignment from the
monotonic counter keeps identifiers unique within the boot epoch. -/
theorem claim_C8 (ops : List cred_op) (hops : ∀ op ∈ ops, op.is_transfer = false)
    (c1 c2 : Nat) (n1 n2 : prov_msg) (hne : c1 ≠ c2)
    (h1 : cred_lookup (cred_run cred_init ops) c1 = some n1)
    (h2 : cred_lookup (cred_run cred_init ops) c2 = some n2) :
    n1.node_id ≠ n2.node_id := by
  have hok : creds_ok (cred_run cred_init ops) :=
    cred_run_preserves ops cred_init hops
      ⟨fun e he => by simp [cred_init] at he, fun a ha => by simp [cred_init] at ha⟩
  exact hok.2 (c1, n1) (assoc_find_mem _ _ _ h1) (c2, n2) (assoc_find_mem _ _ _ h2) hne

/-- Witness for C8 on two blank credential allocations. -/
theorem claim_C8_witness :
    cred_lookup (cred_run cred_init [cred_op.alloc_blank 1 0 0, cred_op.alloc_blank 2 0 0]) 1
        = some { alloc_provenance node_kind.MSG_TASK with node_id := 0 } ∧
    cred_lookup (cred_run cred_init [cred_op.alloc_blank 1 0 0, cred_op.alloc_blank 2 0 0]) 2
        = some { alloc_provenance node_kind.MSG_TASK with node_id := 1 } ∧
    ({ alloc_provenance node_kind.MSG_TASK with node_id := 0 } : prov_msg).node_id ≠
      ({ alloc_provenance node_kind.MSG_TASK with node_id := 1 } : prov_msg).node_id := by
  refine ⟨by decide, by decide, ?_⟩
  exact claim_C8 [cred_op.alloc_blank 1 0 0, cred_op.alloc_blank 2 0 0]
    (by decide) 1 2 _ _ (by decide) (by decide) (by decide)

/-- Counterexample for C8 as stated: credential transfer copies the whole
source record, identifier included, so after alloc-blank, alloc-blank,
transfer the two distinct credentials' nodes share node identifier 0. -/
theorem claim_C8_cex :
    ((cred_lookup (cred_run cred_init
        [cred_op.alloc_blank 1 0 0, cred_op.alloc_blank 2 0 0, cred_op.transfer 2 1]) 1).map
          prov_msg.node_id) = some 0 ∧
    ((cred_lookup (cred_run cred_init
        [cred_op.alloc_blank 1 0 0, cred_op.alloc_blank 2 0 0, cred_op.transfer 2 1]) 2).map
          prov_msg.node_id) = some 0 ∧
    (1 : Nat) ≠ 2 := by
  decide

/-- C1 (amended): a cross-process mutation of a privilege kind by an
actor whose context lacks the matching privilege tag for that exact tag
value fails — with EPERM for an add request and with EINVAL for a remove
request (the process endpoint implements no remove branch) — and in both
cases the target's context is left unchanged and no provenance edge is
emitted. -/
theorem claim_C1 (cifc oifc : ifc_context) (table : List (Nat × ifc_context))
    (count : Nat) (msg : ifc_tag_msg)
    (hcount : sizeof_ifc_tag_msg ≤ count)
    (hvalid : ifc_tag_valid msg.tag = true)
    (hfound : context_from_pid table msg.pid = some oifc)
    (hkind : is_privilege_kind msg.tag_type = true)
    (hlacks : ifc_contains_value (ctx_get cifc msg.tag_type) msg.tag = false) :
    ifc_write_process cifc table count msg =
      ((if msg.op = ifc_op.IFC_ADD_TAG then -EPERM else -EINVAL), table, []) := by
  obtain ⟨op, tt, tag, pid⟩ := msg
  have hc : ¬ count < sizeof_ifc_tag_msg := by omega
  cases op <;> cases tt <;>
    simp_all [ifc_write_process, ctx_get, is_privilege_kind]

/-- Witness for C1: an actor with an empty context adds tag 9 as
secrecy-privilege to existing process 2 and gets EPERM with the table
untouched and no edge. -/
theorem claim_C1_witness :
    ifc_write_process empty_ifc [(2, empty_ifc)] 24
        ⟨ifc_op.IFC_ADD_TAG, IFC_SECRECY_P, 9, 2⟩ =
      (-EPERM, [(2, empty_ifc)], []) := by
  have h := claim_C1 empty_ifc empty_ifc [(2, empty_ifc)] 24
    ⟨ifc_op.IFC_ADD_TAG, IFC_SECRECY_P, 9, 2⟩
    (by decide) (by decide) (by decide) (by decide) (by decide)
  simpa using h

/-- Counterexample for C1 as stated: a remove request by an actor lacking
the privilege fails with EINVAL, not with EPERM. -/
theorem claim_C1_cex :
    ifc_contains_value (ctx_get empty_ifc IFC_SECRECY_P) 9 = false ∧
    (ifc_write_process empty_ifc [(2, empty_ifc)] 24
        ⟨ifc_op.IFC_REMOVE_TAG, IFC_SECRECY_P, 9, 2⟩).1 = -EINVAL ∧
    (ifc_write_process empty_ifc [(2, empty_ifc)] 24
        ⟨ifc_op.IFC_REMOVE_TAG, IFC_SECRECY_P, 9, 2⟩).1 ≠ -EPERM := by
  decide

theorem add_priv_contains_after (c : ifc_context) (k : ifc_tag_type) (t : tag_t)
    (ht : ifc_tag_valid t = true) (hs : (ifc_add_privilege c k t).1 = 0) :
    ifc_contains_value (ctx_get (ifc_add_privilege c k t).2 k) t = true := by
  by_cases hcont : ifc_contains_value (ctx_get c k) t = true
  · simp [ifc_add_privilege, ifc_add_to_set, ht, hcont, ctx_get_set_same]
  · by_cases hl : ifc_label_max ≤ (ctx_get c k).length
    · exfalso
      simp [ifc_add_privilege, ifc_add_to_set, ht, hcont, hl, ENOMEM] at hs
    · have hmem : t ∉ ctx_get c k := by
        simpa [ifc_contains_value] using hcont
      simp [ifc_add_privilege, ifc_add_to_set, ht, hcont, hl, ctx_get_set_same,
            ifc_contains_value, hmem]

/-- C7 (amended): the cross-process endpoint resolves the target context
by process-identifier lookup and fails with EINVAL when no such process
exists; when the process exists and the actor holds the matching
privilege tag, an ADD request applies the tag to the target's context and
succeeds (returning the message size), while a REMOVE request is not
implemented and fails with EINVAL leaving the target unchanged. -/
theorem claim_C7 :
    (∀ (cifc : ifc_context) (table : List (Nat × ifc_context)) (count : Nat)
        (msg : ifc_tag_msg), sizeof_ifc_tag_msg ≤ count →
       ifc_tag_valid msg.tag = true →
       context_from_pid table msg.pid = none →
       ifc_write_process cifc table count msg = (-EINVAL, table, [])) ∧
    (∀ (cifc oifc : ifc_context) (table : List (Nat × ifc_context)) (count : Nat)
        (msg : ifc_tag_msg), sizeof_ifc_tag_msg ≤ count →
       ifc_tag_valid msg.tag = true →
       context_from_pid table msg.pid = some oifc →
       msg.op = ifc_op.IFC_ADD_TAG →
       is_privilege_kind msg.tag_type = true →
       ifc_contains_value (ctx_get cifc msg.tag_type) msg.tag = true →
       (ifc_add_privilege oifc msg.tag_type msg.tag).1 = 0 →
       ifc_write_process cifc table count msg =
         ((sizeof_ifc_tag_msg : Int),
          assoc_update table msg.pid (ifc_add_privilege oifc msg.tag_type msg.tag).2, []) ∧
       ifc_contains_value
         (ctx_get (ifc_add_privilege oifc msg.tag_type msg.tag).2 msg.tag_type) msg.tag
           = true) ∧
    (∀ (cifc oifc : ifc_context) (table : List (Nat × ifc_context)) (count : Nat)
        (msg : ifc_tag_msg), sizeof_ifc_tag_msg ≤ count →
       ifc_tag_valid msg.tag = true →
       context_from_pid table msg.pid = some oifc →
       msg.op = ifc_op.IFC_REMOVE_TAG →
       ifc_write_process cifc table count msg = (-EINVAL, table, [])) := by
  refine ⟨?_, ?_, ?_⟩
  · intro cifc table count msg hcount hvalid hnone
    obtain ⟨op, tt, tag, pid⟩ := msg
    have hc : ¬ count < sizeof_ifc_tag_msg := by omega
    simp_all [ifc_write_process]
  · intro cifc oifc table count msg hcount hvalid hfound hop hkind hholds hadd
    refine ⟨?_, add_priv_contains_after oifc msg.tag_type msg.tag hvalid hadd⟩
    obtain ⟨op, tt, tag, pid⟩ := msg
    have hc : ¬ count < sizeof_ifc_tag_msg := by omega
    subst hop
    cases tt <;> simp_all [ifc_write_process, ctx_get, is_privilege_kind]
  · intro cifc oifc table count msg hcount hvalid hfound hop
    obtain ⟨op, tt, tag, pid⟩ := msg
    have hc : ¬ count < sizeof_ifc_tag_msg := by omega
    subst hop
    simp_all [ifc_write_process]

/-- Witness for C7: an actor holding secrecy-privilege over tag 9 adds it
to existing process 2; the call succeeds and the target's context now
contains the tag. -/
theorem claim_C7_witness :
    ifc_write_process { empty_ifc with secrecy_p := [9] } [(2, empty_ifc)] 24
        ⟨ifc_op.IFC_ADD_TAG, IFC_SECRECY_P, 9, 2⟩ =
      ((sizeof_ifc_tag_msg : Int),
       assoc_update [(2, empty_ifc)] 2 (ifc_add_privilege empty_ifc IFC_SECRECY_P 9).2, []) ∧
    ifc_contains_value (ctx_get (ifc_add_privilege empty_ifc IFC_SECRECY_P 9).2 IFC_SECRECY_P) 9
        = true :=
  claim_C7.2.1 { empty_ifc with secrecy_p := [9] } empty_ifc [(2, empty_ifc)] 24
    ⟨ifc_op.IFC_ADD_TAG, IFC_SECRECY_P, 9, 2⟩
    (by decide) (by decide) (by decide) rfl (by decide) (by decide) (by decide)

/-- Counterexample for C7 as stated: a remove request by an actor that
does hold the matching privilege tag is not applied — the endpoint
returns EINVAL and leaves the target's context unchanged. -/
theorem claim_C7_cex :
    ifc_contains_value (ctx_get { empty_ifc with secrecy_p := [9] } IFC_SECRECY_P) 9 = true ∧
    ifc_contains_value (ctx_get { empty_ifc with secrecy_p := [9] } IFC_SECRECY_P) 9 = true ∧
    (ifc_write_process { empty_ifc with secrecy_p := [9] }
        [(2, { empty_ifc with secrecy_p := [9] })] 24
        ⟨ifc_op.IFC_REMOVE_TAG, IFC_SECRECY_P, 9, 2⟩).1 = -EINVAL ∧
    (ifc_write_process { empty_ifc with secrecy_p := [9] }
        [(2, { empty_ifc with secrecy_p := [9] })] 24
        ⟨ifc_op.IFC_REMOVE_TAG, IFC_SECRECY_P, 9, 2⟩).2.1
      = [(2, { empty_ifc with secrecy_p := [9] })] := by
  decide

/-- C2 (amended): a failure inside provenance capture never changes the
mediated operation's observable return value — the hook returns 0 and the
operation proceeds without capture — except that (i) allocation failure
inside the security-structure allocation hooks (credential alloc-blank
and prepare, inode, message, shared-memory) returns ENOMEM, and (ii)
socket bind and connect for a non-opaque caller and shared-memory attach
return ENOMEM when the target object's provenance node is absent. -/
theorem claim_C2 :
    (∀ c m, (provenance_msg_queue_msgsnd c m).1 = 0) ∧
    (∀ cur tgt m, (provenance_msg_queue_msgrcv cur tgt m).1 = 0) ∧
    (∀ cp ino ip mask aok, (provenance_inode_permission cp ino ip mask aok).ret = 0) ∧
    (∀ cp ino ip pn aok, (provenance_file_open cp ino ip pn aok).fault = false →
       (provenance_file_open cp ino ip pn aok).ret = 0) ∧
    (∀ cp ino ip pn aok, (provenance_file_ioctl cp ino ip pn aok).fault = false →
       (provenance_file_ioctl cp ino ip pn aok).ret = 0) ∧
    (∀ cp f ip pn prot, (provenance_mmap_file cp f ip pn prot).fault = false →
       (provenance_mmap_file cp f ip pn prot).ret = 0) ∧
    (∀ cp addr, cp.opq = false → (provenance_socket_bind cp none addr).1 = -ENOMEM) ∧
    (∀ cp sk addr, (provenance_socket_bind cp (some sk) addr).1 = 0) ∧
    (∀ cp sk addr, cp.opq = true → (provenance_socket_bind cp sk addr).1 = 0) ∧
    (∀ cp addr, cp.opq = false → (provenance_socket_connect cp none addr).1 = -ENOMEM) ∧
    (∀ cp sk addr, (provenance_socket_connect cp (some sk) addr).1 = 0) ∧
    (∀ cp sk addr, cp.opq = true → (provenance_socket_connect cp sk addr).1 = 0) ∧
    (∀ cp flg, (provenance_shm_shmat cp none flg).1 = -ENOMEM) ∧
    (∀ cp sp flg, (provenance_shm_shmat cp (some sp) flg).1 = 0) ∧
    (∀ ctr u g, (provenance_cred_alloc_blank ctr u g false).1 = -ENOMEM) ∧
    (∀ ctr u g, (provenance_cred_alloc_blank ctr u g true).1 = 0) ∧
    (∀ ctr old fc u g, (provenance_cred_prepare ctr old fc u g false).1 = -ENOMEM) ∧
    (∀ ctr old fc u g, (provenance_cred_prepare ctr old fc u g true).1 = 0) ∧
    (∀ cp ino, (provenance_inode_alloc_security cp ino false).1 = -ENOMEM) ∧
    (∀ cp ino, (provenance_inode_alloc_security cp ino true).1 = 0) ∧
    (∀ ctr cp mt fc, (provenance_msg_msg_alloc_security ctr cp mt fc false).ret = -ENOMEM) ∧
    (∀ ctr cp mt fc, (provenance_msg_msg_alloc_security ctr cp mt (some fc) true).ret = 0) ∧
    (∀ ctr cp md fc, (provenance_shm_alloc_security ctr cp md fc false).ret = -ENOMEM) ∧
    (∀ ctr cp md fc, (provenance_shm_alloc_security ctr cp md (some fc) true).ret = 0) := by
  refine ⟨fun c m => rfl, fun cur tgt m => rfl, ?_, ?_, ?_, ?_, ?_, ?_, ?_, ?_, ?_, ?_,
          ?_, ?_, ?_, ?_, ?_, ?_, ?_, ?_, ?_, ?_, ?_, ?_⟩
  · intro cp ino ip mask aok
    unfold provenance_inode_permission
    split <;> rfl
  · intro cp ino ip pn aok _
    unfold provenance_file_open
    split <;> dsimp only <;> split <;> rfl
  · intro cp ino ip pn aok _
    unfold provenance_file_ioctl
    split <;> dsimp only <;> split <;> rfl
  · intro cp f ip pn prot _
    unfold provenance_mmap_file
    rcases f with _ | ino
    · rfl
    · simp only []
      split <;> rfl
  · intro cp addr h
    simp [provenance_socket_bind, h]
  · intro cp sk addr
    by_cases h : cp.opq = true <;> simp [provenance_socket_bind, h]
  · intro cp sk addr h
    simp [provenance_socket_bind, h]
  · intro cp addr h
    simp [provenance_socket_connect, h]
  · intro cp sk addr
    by_cases h : cp.opq = true <;> simp [provenance_socket_connect, h]
  · intro cp sk addr h
    simp [provenance_socket_connect, h]
  · intro cp flg
    rfl
  · intro cp sp flg
    dsimp only [provenance_shm_shmat]
    split <;> rfl
  · intro ctr u g
    rfl
  · intro ctr u g
    rfl
  · intro ctr old fc u g
    rfl
  · intro ctr old fc u g
    rfl
  · intro cp ino
    rfl
  · intro cp ino
    rfl
  · intro ctr cp mt fc
    rfl
  · intro ctr cp mt fc
    rfl
  · intro ctr cp md fc
    rfl
  · intro ctr cp md fc
    rfl

/-- Witness for C2 instantiating the hypothesis-bearing parts at concrete
inputs: a fault-free open returns 0, and a non-opaque caller's bind on a
socket without a node returns ENOMEM. -/
theorem claim_C2_witness :
    (provenance_file_open task0 sample_inode (some inode_node0) 3 true).fault = false ∧
    (provenance_file_open task0 sample_inode (some inode_node0) 3 true).ret = 0 ∧
    task0.opq = false ∧
    (provenance_socket_bind task0 none 7).1 = -ENOMEM ∧
    (provenance_socket_bind opaque_task none 7).1 = 0 := by
  obtain ⟨_, _, _, hopen, _, _, hbind, _, hbindopq, _⟩ := claim_C2
  exact ⟨by decide, hopen task0 sample_inode (some inode_node0) 3 true (by decide),
         by decide, hbind task0 7 (by decide), hbindopq opaque_task none 7 (by decide)⟩

/-- Counterexample for C2 as stated: a missing socket node makes bind
(and connect, and a missing segment node makes shm attach) fail with
ENOMEM — a visible change of the mediated operation's return value that
is not an allocation failure during credential-context setup. -/
theorem claim_C2_cex :
    task0.opq = false ∧
    (provenance_socket_bind task0 none 7).1 = -ENOMEM ∧
    (provenance_socket_bind task0 none 7).1 ≠ 0 ∧
    (provenance_socket_connect task0 none 7).1 ≠ 0 ∧
    (provenance_shm_shmat task0 none 0).1 = -ENOMEM ∧
    (provenance_shm_shmat task0 none 0).1 ≠ 0 := by
  decide

/-- C10: in the fresh-tag mint endpoint the four privilege grants land in
the caller's context before the tag is copied back; when the copy fails
the endpoint returns the transient error EAGAIN while the grants stay in
place and the tag counter is consumed, so the caller permanently holds
privilege over a tag value it never received. -/
theorem claim_C10 (cifc : ifc_context) (counter count : Nat)
    (hcount : sizeof_tag_t ≤ count) (hctr : ifc_tag_valid counter = true)
    (h1 : cifc.secrecy_p.length < ifc_label_max)
    (h2 : cifc.integrity_p.length < ifc_label_max)
    (h3 : cifc.secrecy_n.length < ifc_label_max)
    (h4 : cifc.integrity_n.length < ifc_label_max) :
    (ifc_read_tag cifc counter count false).1 = -EAGAIN ∧
    (ifc_read_tag cifc counter count false).2.2 = counter + 1 ∧
    ifc_contains_value ((ifc_read_tag cifc counter count false).2.1).secrecy_p counter = true ∧
    ifc_contains_value ((ifc_read_tag cifc counter count false).2.1).integrity_p counter = true ∧
    ifc_contains_value ((ifc_read_tag cifc counter count false).2.1).secrecy_n counter = true ∧
    ifc_contains_value ((ifc_read_tag cifc counter count false).2.1).integrity_n counter = true := by
  have hA := add_priv_ok cifc IFC_SECRECY_P counter hctr (by simpa [ctx_get] using h1)
  have hB := add_priv_ok (ifc_add_privilege cifc IFC_SECRECY_P counter).2
      IFC_INTEGRITY_P counter hctr
    (by rw [hA.2.2 IFC_INTEGRITY_P (by decide)]; simpa [ctx_get] using h2)
  have hC := add_priv_ok
      (ifc_add_privilege (ifc_add_privilege cifc IFC_SECRECY_P counter).2
        IFC_INTEGRITY_P counter).2
      IFC_SECRECY_N counter hctr
    (by rw [hB.2.2 IFC_SECRECY_N (by decide), hA.2.2 IFC_SECRECY_N (by decide)]
        simpa [ctx_get] using h3)
  have hD := add_priv_ok
      (ifc_add_privilege (ifc_add_privilege (ifc_add_privilege cifc IFC_SECRECY_P counter).2
        IFC_INTEGRITY_P counter).2 IFC_SECRECY_N counter).2
      IFC_INTEGRITY_N counter hctr
    (by rw [hC.2.2 IFC_INTEGRITY_N (by decide), hB.2.2 IFC_INTEGRITY_N (by decide),
            hA.2.2 IFC_INTEGRITY_N (by decide)]
        simpa [ctx_get] using h4)
  have hnc : ¬ count < sizeof_tag_t := by omega
  have hlor : ((((0 : Int).lor 0).lor 0).lor 0) = 0 := by decide
  have key : ifc_read_tag cifc counter count false =
      (-EAGAIN,
       (ifc_add_privilege (ifc_add_privilege (ifc_add_privilege
          (ifc_add_privilege cifc IFC_SECRECY_P counter).2
          IFC_INTEGRITY_P counter).2 IFC_SECRECY_N counter).2 IFC_INTEGRITY_N counter).2,
       counter + 1) := by
    unfold ifc_read_tag
    rw [if_neg hnc]
    dsimp only [ifc_create_tag]
    rw [hA.1, hB.1, hC.1, hD.1, hlor]
    simp
  have m1 : ifc_contains_value
      (ctx_get (ifc_add_privilege (ifc_add_privilege (ifc_add_privilege
        (ifc_add_privilege cifc IFC_SECRECY_P counter).2
        IFC_INTEGRITY_P counter).2 IFC_SECRECY_N counter).2 IFC_INTEGRITY_N counter).2
        IFC_SECRECY_P) counter = true := by
    rw [hD.2.2 IFC_SECRECY_P (by decide), hC.2.2 IFC_SECRECY_P (by decide),
        hB.2.2 IFC_SECRECY_P (by decide)]
    exact hA.2.1
  have m2 : ifc_contains_value
      (ctx_get (ifc_add_privilege (ifc_add_privilege (ifc_add_privilege
        (ifc_add_privilege cifc IFC_SECRECY_P counter).2
        IFC_INTEGRITY_P counter).2 IFC_SECRECY_N counter).2 IFC_INTEGRITY_N counter).2
        IFC_INTEGRITY_P) counter = true := by
    rw [hD.2.2 IFC_INTEGRITY_P (by decide), hC.2.2 IFC_INTEGRITY_P (by decide)]
    exact hB.2.1
  have m3 : ifc_contains_value
      (ctx_get (ifc_add_privilege (ifc_add_privilege (ifc_add_privilege
        (ifc_add_privilege cifc IFC_SECRECY_P counter).2
        IFC_INTEGRITY_P counter).2 IFC_SECRECY_N counter).2 IFC_INTEGRITY_N counter).2
        IFC_SECRECY_N) counter = true := by
    rw [hD.2.2 IFC_SECRECY_N (by decide)]
    exact hC.2.1
  have m4 : ifc_contains_value
      (ctx_get (ifc_add_privilege (ifc_add_privilege (ifc_add_privilege
        (ifc_add_privilege cifc IFC_SECRECY_P counter).2
        IFC_INTEGRITY_P counter).2 IFC_SECRECY_N counter).2 IFC_INTEGRITY_N counter).2
        IFC_INTEGRITY_N) counter = true := hD.2.1
  refine ⟨by rw [key], by rw [key], ?_, ?_, ?_, ?_⟩
  · rw [key]
    simpa [ctx_get] using m1
  · rw [key]
    simpa [ctx_get] using m2
  · rw [key]
    simpa [ctx_get] using m3
  · rw [key]
    simpa [ctx_get] using m4

/-- Witness for C10: an empty caller context, counter 1, count 8 and a
failing copy-back. -/
theorem claim_C10_witness :
    (ifc_read_tag empty_ifc 1 8 false).1 = -EAGAIN ∧
    (ifc_read_tag empty_ifc 1 8 false).2.2 = 1 + 1 ∧
    ifc_contains_value ((ifc_read_tag empty_ifc 1 8 false).2.1).secrecy_p 1 = true ∧
    ifc_contains_value ((ifc_read_tag empty_ifc 1 8 false).2.1).integrity_p 1 = true ∧
    ifc_contains_value ((ifc_read_tag empty_ifc 1 8 false).2.1).secrecy_n 1 = true ∧
    ifc_contains_value ((ifc_read_tag empty_ifc 1 8 false).2.1).integrity_n 1 = true :=
  claim_C10 empty_ifc 1 8 (by decide) (by decide) (by decide) (by decide) (by decide) (by decide)
